import Mathlib

/-!
Shallow embedding of the order/cart/table logic of the restaurant
self-ordering page (`src/app/order/page.tsx`).

Modelling conventions:
* JavaScript numbers are modelled as exact rationals `ℚ` (prices,
  quantities, totals) or as `Int` (epoch millis); `parseInt` results are
  `Option Int`, with `none` standing for `NaN`.
* `JSON.stringify` equality on `SelectedOption[]` is modelled as structural
  list equality: serialization of these records (fixed field order
  `id, name, price`, deterministic string escaping, distinct numbers
  serialize distinctly) is injective, so stringify-equality coincides with
  structural equality and stays order-sensitive across the list.
* React state updates are modelled as pure state-passing functions; the
  Firestore round trips are parameters (the store's response) and explicit
  write descriptions in the result.
-/

/-- A chosen option snapshot (`SelectedOption` in the source). -/
structure SelectedOption where
  id : String
  name : String
  price : ℚ
  deriving DecidableEq, Repr

/-- An option offered by a menu item (element type of `MenuItem.options`). -/
structure OptionSpec where
  id : String
  name : String
  isRequired : Bool
  maxSelections : Option ℚ
  price : ℚ
  deriving DecidableEq, Repr

/-- `MenuItem` from the source; `imageUrl` is optional, `options` defaults
to `[]` at load time so it is a plain list here. -/
structure MenuItem where
  id : String
  name : String
  price : ℚ
  category : String
  imageUrl : Option String
  options : List OptionSpec
  deriving DecidableEq, Repr

/-- `CartItem extends MenuItem` with a quantity and the selected options. -/
structure CartItem extends MenuItem where
  quantity : ℚ
  selectedOptions : List SelectedOption
  deriving DecidableEq, Repr

/-- Order status values. -/
inductive OrderStatus where
  | pending
  | completed
  | cancelled
  deriving DecidableEq, Repr

/-- Payment methods. -/
inductive PaymentMethod where
  | cash
  | gcash
  deriving DecidableEq, Repr

/-- A value stored in the schemaless document store for the `tableNumber`
field: `handleOrderNow` writes a number (`parseInt` result, possibly `NaN`
= `num none`), while `updateTableNumberInFirestore` writes the raw string. -/
inductive FsVal where
  | str : String → FsVal
  | num : Option Int → FsVal
  deriving DecidableEq, Repr

/-- The persisted order record (`Omit<Order, "id">` in the source). -/
structure OrderDoc where
  deviceId : String
  tableNumber : FsVal
  items : List CartItem
  total : ℚ
  status : OrderStatus
  createdAt : Int
  paymentMethod : Option PaymentMethod
  deriving DecidableEq, Repr

/-- An order as held in local state: the persisted fields plus the
(optional) document id merged back in. -/
structure Order extends OrderDoc where
  id : Option String
  deriving DecidableEq, Repr

/-! ## JavaScript `parseInt` (no radix argument), used on the table number -/

/-- JS whitespace skipped by `parseInt`. -/
def isJsWhitespace (c : Char) : Bool :=
  c == ' ' || c == '\t' || c == '\n' || c == '\r' || c == '\x0b' || c == '\x0c'

/-- Decimal digit value. -/
def decDigit (c : Char) : Option Nat :=
  if '0' ≤ c ∧ c ≤ '9' then some (c.toNat - '0'.toNat) else none

/-- Hexadecimal digit value. -/
def hexDigit (c : Char) : Option Nat :=
  if '0' ≤ c ∧ c ≤ '9' then some (c.toNat - '0'.toNat)
  else if 'a' ≤ c ∧ c ≤ 'f' then some (c.toNat - 'a'.toNat + 10)
  else if 'A' ≤ c ∧ c ≤ 'F' then some (c.toNat - 'A'.toNat + 10)
  else none

/-- Accumulate the longest prefix of digits; `none` when no digit was read. -/
def parseDigits (dig : Char → Option Nat) (radix : Nat) :
    List Char → Option Nat → Option Nat
  | [], acc => acc
  | c :: cs, acc =>
    match dig c with
    | some d => parseDigits dig radix cs (some (acc.getD 0 * radix + d))
    | none => acc

/-- Magnitude part of `parseInt`: optional `0x`/`0X` prefix selects hex. -/
def jsParseIntMag : List Char → Option Nat
  | '0' :: 'x' :: rest => parseDigits hexDigit 16 rest none
  | '0' :: 'X' :: rest => parseDigits hexDigit 16 rest none
  | cs => parseDigits decDigit 10 cs none

/-- JavaScript `parseInt(s)` with no radix argument; `none` models `NaN`. -/
def jsParseInt (s : String) : Option Int :=
  match s.data.dropWhile isJsWhitespace with
  | '-' :: rest => (jsParseIntMag rest).map (fun n => -(n : Int))
  | '+' :: rest => (jsParseIntMag rest).map (fun n => (n : Int))
  | cs => (jsParseIntMag cs).map (fun n => (n : Int))

/-! ## Cart reconciler -/

/-- The cart identity key test from the source:
`cartItem.id === item.id && JSON.stringify(cartItem.selectedOptions) ===
JSON.stringify(selectedOptions)`; stringify-equality is structural list
equality here (see the header note). -/
def lineKeyMatches (itemId : String) (opts : List SelectedOption)
    (c : CartItem) : Bool :=
  c.id == itemId && c.selectedOptions == opts

/-- The fresh cart line appended by `handlePlaceOrder`:
`{ ...item, quantity: 1, selectedOptions }`. -/
def newCartLine (item : MenuItem) (opts : List SelectedOption) : CartItem :=
  { toMenuItem := item, quantity := 1, selectedOptions := opts }

/-- `handlePlaceOrder` (the cart `setCart` updater): find an existing line
with the same id and stringified option set; if found, bump the quantity of
every matching line by 1; else append a new line with quantity 1. -/
def handlePlaceOrder (cart : List CartItem) (item : MenuItem)
    (selectedOptions : List SelectedOption) : List CartItem :=
  match cart.find? (lineKeyMatches item.id selectedOptions) with
  | some _ =>
      cart.map (fun c =>
        if lineKeyMatches item.id selectedOptions c then
          { c with quantity := c.quantity + 1 }
        else c)
  | none => cart ++ [newCartLine item selectedOptions]

/-- `handleUpdateQuantity`: quantity below 1 filters the matching line out;
otherwise the matching line's quantity is set to the new value. -/
def handleUpdateQuantity (cart : List CartItem) (itemId : String)
    (newQuantity : ℚ) (selectedOptions : List SelectedOption) :
    List CartItem :=
  if newQuantity < 1 then
    cart.filter (fun c => !(lineKeyMatches itemId selectedOptions c))
  else
    cart.map (fun c =>
      if lineKeyMatches itemId selectedOptions c then
        { c with quantity := newQuantity }
      else c)

/-- `cartTotal`: `cart.reduce((total, item) => total + item.price *
item.quantity, 0)` — note option prices are not consulted. -/
def cartTotal (cart : List CartItem) : ℚ :=
  cart.foldl (fun total item => total + item.price * item.quantity) 0

/-- The total demanded by the spec's §3 invariant:
`(item.price + sum(option.price for option in selectedOptions)) * quantity`
summed over the cart. Written from the spec's words, for comparison with
`cartTotal`. -/
def computeTotalSpec (cart : List CartItem) : ℚ :=
  (cart.map (fun c =>
    (c.price + (c.selectedOptions.map (fun o => o.price)).sum) * c.quantity)).sum

/-! ## Order submission (`handleOrderNow`) -/

/-- The component state touched by order submission. -/
structure ClientState where
  cart : List CartItem
  orders : List Order
  isSubmitting : Bool
  tableNumber : String
  deriving DecidableEq, Repr

/-- Result of one `handleOrderNow` run: the state afterwards, the order
document persisted in the store (`none` when nothing was persisted), and
whether an error was logged. -/
structure SubmitResult where
  state : ClientState
  persisted : Option OrderDoc
  errorLogged : Bool
  deriving DecidableEq, Repr

/-- The order document `handleOrderNow` builds from the state. -/
def buildOrderDoc (s : ClientState) (deviceId : String) (now : Int) :
    OrderDoc :=
  { deviceId := deviceId
    tableNumber := FsVal.num (jsParseInt s.tableNumber)
    items := s.cart
    total := cartTotal s.cart
    status := OrderStatus.pending
    createdAt := now
    paymentMethod := some PaymentMethod.cash }

/-- `handleOrderNow`: guard `cart.length === 0 || isSubmitting ||
!tableNumber` returns untouched state; otherwise the built order is saved.
`save` is the store's response (`ok` carries the generated document id).
On success the order is merged into local orders unless an order with that
id is already present, and the cart is cleared; on failure the error is
logged and state is untouched except for the `finally` reset of the
submission flag. -/
def handleOrderNow (s : ClientState) (deviceId : String) (now : Int)
    (save : Except Unit String) : SubmitResult :=
  if s.cart.isEmpty || s.isSubmitting || s.tableNumber == "" then
    { state := s, persisted := none, errorLogged := false }
  else
    let newOrder := buildOrderDoc s deviceId now
    match save with
    | Except.ok orderId =>
        let orders :=
          if s.orders.any (fun o => o.id == some orderId) then s.orders
          else { toOrderDoc := newOrder, id := some orderId } :: s.orders
        { state := { s with orders := orders, cart := [], isSubmitting := false }
          persisted := some newOrder
          errorLogged := false }
    | Except.error _ =>
        { state := { s with isSubmitting := false }
          persisted := none
          errorLogged := true }

/-! ## Table number resolution and bulk update -/

/-- JS truthiness of a `string | null` value (`null` and `""` are falsy). -/
def jsTruthy : Option String → Bool
  | none => false
  | some s => !(s == "")

/-- Outcome of the startup table-resolution effect: the `tableNumber`
state (`""` = unset), the value written to `localStorage` (if any), and
the table modal's visibility afterwards (initially open). -/
structure TableResolution where
  tableNumber : String
  storedWrite : Option String
  showTableModal : Bool
  deriving DecidableEq, Repr

/-- The `useEffect` resolving the initial table number: a truthy URL
parameter wins and is persisted; otherwise a truthy stored value is used;
otherwise the state keeps its initial values (`""`, modal open). -/
def resolveInitialTable (urlParam stored : Option String) :
    TableResolution :=
  if jsTruthy urlParam then
    { tableNumber := urlParam.getD ""
      storedWrite := urlParam
      showTableModal := false }
  else if jsTruthy stored then
    { tableNumber := stored.getD ""
      storedWrite := none
      showTableModal := false }
  else
    { tableNumber := ""
      storedWrite := none
      showTableModal := true }

/-- A document in the `orders` collection: Firestore id plus data. -/
structure StoredOrder where
  docId : String
  doc : OrderDoc
  deriving DecidableEq, Repr

/-- One `updateDoc(doc.ref, { tableNumber: newTableNumber })` call:
the target document and the string written to its `tableNumber` field. -/
structure TableUpdateWrite where
  docId : String
  newTableNumber : String
  deriving DecidableEq, Repr

/-- `updateTableNumberInFirestore`: query the orders with this device id
and `status == "pending"`, and issue one `tableNumber` update per matched
document. The result lists the issued writes in store order. -/
def updateTableNumberInFirestore (store : List StoredOrder)
    (newTableNumber deviceId : String) : List TableUpdateWrite :=
  (store.filter (fun so =>
      so.doc.deviceId == deviceId && so.doc.status == OrderStatus.pending)).map
    (fun so => { docId := so.docId, newTableNumber := newTableNumber })

/-- Applying a `tableNumber` update to a document: only the `tableNumber`
field changes, to the raw string. -/
def applyTableUpdate (d : OrderDoc) (w : TableUpdateWrite) : OrderDoc :=
  { d with tableNumber := FsVal.str w.newTableNumber }

/-! ## Concrete fixtures for witnesses -/

/-- A concrete selected option. -/
def optA : SelectedOption := { id := "o1", name := "Cheese", price := 5 }

/-- A second concrete selected option. -/
def optB : SelectedOption := { id := "o2", name := "Bacon", price := 3 }

/-- A concrete menu item. -/
def burger : MenuItem :=
  { id := "m1", name := "Burger", price := 10, category := "c1"
    imageUrl := none, options := [] }

/-- A second concrete menu item. -/
def fries : MenuItem :=
  { id := "m2", name := "Fries", price := 4, category := "c1"
    imageUrl := none, options := [] }

/-- A concrete cart line: a burger with one priced option. -/
def lineBurger : CartItem :=
  { toMenuItem := burger, quantity := 1, selectedOptions := [optA] }

/-- A concrete cart line: two fries, no options. -/
def lineFries : CartItem :=
  { toMenuItem := fries, quantity := 2, selectedOptions := [] }

/-- A state whose guard conditions all pass. -/
def readyState : ClientState :=
  { cart := [lineFries], orders := [], isSubmitting := false
    tableNumber := "7" }

/-- A state with an empty cart. -/
def emptyCartState : ClientState :=
  { cart := [], orders := [], isSubmitting := false, tableNumber := "7" }

/-- `readyState` with a non-numeric table string. -/
def abcState : ClientState :=
  { cart := [lineFries], orders := [], isSubmitting := false
    tableNumber := "abc" }

/-- A concrete pending order document for device `dev`. -/
def docPending : OrderDoc :=
  { deviceId := "dev", tableNumber := FsVal.num (some 3)
    items := [lineFries], total := 8, status := OrderStatus.pending
    createdAt := 100, paymentMethod := some PaymentMethod.cash }

/-- `docPending` but already completed. -/
def docDone : OrderDoc := { docPending with status := OrderStatus.completed }

/-- A concrete two-document store: one pending, one completed. -/
def demoStore : List StoredOrder :=
  [{ docId := "d1", doc := docPending }, { docId := "d2", doc := docDone }]

/-! ## Helper lemmas -/

/-- `cartTotal`'s fold, with an explicit accumulator, is the accumulator
plus the sum of the per-line `price * quantity` products. -/
theorem cartTotal_foldl (l : List CartItem) :
    ∀ a : ℚ, l.foldl (fun total item => total + item.price * item.quantity) a
      = a + (l.map (fun c => c.price * c.quantity)).sum := by
  induction l with
  | nil => intro a; simp
  | cons x xs ih => intro a; simp [ih, add_assoc]

/-- `cartTotal` as a sum over the mapped cart. -/
theorem cartTotal_eq_sum (l : List CartItem) :
    cartTotal l = (l.map (fun c => c.price * c.quantity)).sum := by
  simpa using cartTotal_foldl l 0

/-! ## Claims -/

/-- C9: `cartTotal` is invariant under any permutation of the cart lines. -/
theorem cartTotal_perm_invariant (c1 c2 : List CartItem) (h : c1.Perm c2) :
    cartTotal c1 = cartTotal c2 := by
  rw [cartTotal_eq_sum, cartTotal_eq_sum]
  exact (h.map _).sum_eq

/-- Witness for C9 at a concrete two-line cart and its swap. -/
theorem cartTotal_perm_invariant_witness :
    cartTotal [lineBurger, lineFries] = cartTotal [lineFries, lineBurger] :=
  cartTotal_perm_invariant _ _ (List.Perm.swap lineFries lineBurger [])

/-- C1 (code bug exhibit): on a one-line cart holding a 10-peso burger with
a 5-peso selected option at quantity 1, the source's `cartTotal` yields 10
while the spec invariant's total (`computeTotalSpec`) yields 15 — option
prices never contribute to the source's total. -/
theorem cartTotal_ignores_option_prices :
    cartTotal [lineBurger] = 10 ∧ computeTotalSpec [lineBurger] = 15 ∧
    cartTotal [lineBurger] ≠ computeTotalSpec [lineBurger] := by
  refine ⟨?_, ?_, ?_⟩ <;>
    norm_num [cartTotal, computeTotalSpec, lineBurger, burger, optA]

/-- C6: initial table resolution — a present (non-empty) URL parameter wins
and is written to storage with the modal closed; otherwise a present stored
value is used without a storage write; otherwise the table stays unset with
the modal open; concretely, URL `"5"` with stored `"3"` resolves to `"5"`
and overwrites storage with `"5"`. -/
theorem resolveInitialTable_spec (urlParam stored : Option String) :
    (∀ u : String, urlParam = some u → u ≠ "" →
      resolveInitialTable urlParam stored =
        { tableNumber := u, storedWrite := some u, showTableModal := false }) ∧
    (jsTruthy urlParam = false → ∀ s : String, stored = some s → s ≠ "" →
      resolveInitialTable urlParam stored =
        { tableNumber := s, storedWrite := none, showTableModal := false }) ∧
    (jsTruthy urlParam = false → jsTruthy stored = false →
      resolveInitialTable urlParam stored =
        { tableNumber := "", storedWrite := none, showTableModal := true }) ∧
    resolveInitialTable (some "5") (some "3") =
      { tableNumber := "5", storedWrite := some "5", showTableModal := false } := by
  refine ⟨?_, ?_, ?_, rfl⟩
  · rintro u rfl hu
    have htr : jsTruthy (some u) = true := by simp [jsTruthy, hu]
    simp [resolveInitialTable, htr]
  · rintro hurl s rfl hs
    have htr : jsTruthy (some s) = true := by simp [jsTruthy, hs]
    simp [resolveInitialTable, hurl, htr]
  · intro h1 h2
    simp [resolveInitialTable, h1, h2]

/-- Witness for C6 at URL param `"5"`, stored `"3"`. -/
theorem resolveInitialTable_spec_witness :
    resolveInitialTable (some "5") (some "3") =
      { tableNumber := "5", storedWrite := some "5", showTableModal := false } :=
  (resolveInitialTable_spec (some "5") (some "3")).1 "5" rfl (by decide)

/-- C8: when the cart is empty, the table number is unset, or a submission
is in flight, `handleOrderNow` persists nothing and leaves the whole state
exactly as it was. -/
theorem handleOrderNow_guard_noop (s : ClientState) (deviceId : String)
    (now : Int) (save : Except Unit String)
    (h : s.cart = [] ∨ s.tableNumber = "" ∨ s.isSubmitting = true) :
    handleOrderNow s deviceId now save =
      { state := s, persisted := none, errorLogged := false } := by
  unfold handleOrderNow
  rcases h with h | h | h <;> simp [h]

/-- Witness for C8 at a concrete empty-cart state. -/
theorem handleOrderNow_guard_noop_witness :
    handleOrderNow emptyCartState "dev" 0 (Except.ok "ord1") =
      { state := emptyCartState, persisted := none, errorLogged := false } :=
  handleOrderNow_guard_noop emptyCartState "dev" 0 (Except.ok "ord1")
    (Or.inl rfl)

/-- C4: when persisting the order fails, `handleOrderNow` leaves the cart,
the local order list and the table number unchanged, logs the error,
persists nothing, and resets the submission flag. -/
theorem handleOrderNow_failure_spec (s : ClientState) (deviceId : String)
    (now : Int) (hc : s.cart ≠ []) (ht : s.tableNumber ≠ "")
    (hs : s.isSubmitting = false) :
    (handleOrderNow s deviceId now (Except.error ())).state.cart = s.cart ∧
    (handleOrderNow s deviceId now (Except.error ())).state.orders = s.orders ∧
    (handleOrderNow s deviceId now (Except.error ())).state.tableNumber
      = s.tableNumber ∧
    (handleOrderNow s deviceId now (Except.error ())).state.isSubmitting
      = false ∧
    (handleOrderNow s deviceId now (Except.error ())).errorLogged = true ∧
    (handleOrderNow s deviceId now (Except.error ())).persisted = none := by
  have hguard : (s.cart.isEmpty || s.isSubmitting || s.tableNumber == "")
      = false := by
    simp [hs, hc, ht]
  simp [handleOrderNow, hguard]

/-- Witness for C4 at a concrete ready state. -/
theorem handleOrderNow_failure_spec_witness :
    (handleOrderNow readyState "dev" 0 (Except.error ())).state.cart
      = readyState.cart ∧
    (handleOrderNow readyState "dev" 0 (Except.error ())).errorLogged
      = true :=
  ⟨(handleOrderNow_failure_spec readyState "dev" 0 (by decide) (by decide)
      rfl).1,
   (handleOrderNow_failure_spec readyState "dev" 0 (by decide) (by decide)
      rfl).2.2.2.2.1⟩

/-- C3: a successful submission persists exactly the order built from the
state (pending status, `createdAt = now`, cash payment, the cart snapshot
as items), clears the cart, merges the new order into the local list only
when its id is absent, and — provided the subscription delivered it at most
once already — the order's id occurs exactly once in the resulting list. -/
theorem handleOrderNow_success_spec (s : ClientState) (deviceId : String)
    (now : Int) (orderId : String) (hc : s.cart ≠ []) (ht : s.tableNumber ≠ "")
    (hs : s.isSubmitting = false) :
    (handleOrderNow s deviceId now (Except.ok orderId)).persisted =
      some (buildOrderDoc s deviceId now) ∧
    (buildOrderDoc s deviceId now).status = OrderStatus.pending ∧
    (buildOrderDoc s deviceId now).createdAt = now ∧
    (buildOrderDoc s deviceId now).paymentMethod = some PaymentMethod.cash ∧
    (buildOrderDoc s deviceId now).items = s.cart ∧
    (buildOrderDoc s deviceId now).total = cartTotal s.cart ∧
    (buildOrderDoc s deviceId now).deviceId = deviceId ∧
    (handleOrderNow s deviceId now (Except.ok orderId)).state.cart = [] ∧
    (handleOrderNow s deviceId now (Except.ok orderId)).state.isSubmitting
      = false ∧
    (handleOrderNow s deviceId now (Except.ok orderId)).state.orders =
      (if s.orders.any (fun o => o.id == some orderId) then s.orders
       else { toOrderDoc := buildOrderDoc s deviceId now, id := some orderId }
         :: s.orders) ∧
    (s.orders.countP (fun o => o.id == some orderId) ≤ 1 →
      (handleOrderNow s deviceId now (Except.ok orderId)).state.orders.countP
        (fun o => o.id == some orderId) = 1) := by
  have hguard : (s.cart.isEmpty || s.isSubmitting || s.tableNumber == "")
      = false := by
    simp [hs, hc, ht]
  have horders : (handleOrderNow s deviceId now
      (Except.ok orderId)).state.orders =
      (if s.orders.any (fun o => o.id == some orderId) then s.orders
       else { toOrderDoc := buildOrderDoc s deviceId now, id := some orderId }
         :: s.orders) := by
    simp [handleOrderNow, hguard, buildOrderDoc]
  refine ⟨?_, rfl, rfl, rfl, rfl, rfl, rfl, ?_, ?_, horders, ?_⟩
  · simp [handleOrderNow, hguard, buildOrderDoc]
  · simp [handleOrderNow, hguard]
  · simp [handleOrderNow, hguard]
  · intro hle
    rw [horders]
    by_cases hany : s.orders.any (fun o => o.id == some orderId) = true
    · rw [if_pos hany]
      have hpos : 0 < s.orders.countP (fun o => o.id == some orderId) := by
        rw [List.countP_pos_iff]
        simpa using List.any_eq_true.mp hany
      omega
    · rw [if_neg hany]
      have hzero : s.orders.countP (fun o => o.id == some orderId) = 0 := by
        rw [List.countP_eq_zero]
        intro a ha
        have hfalse := List.any_eq_false.mp (Bool.eq_false_iff.mpr hany) a ha
        simpa using hfalse
      rw [List.countP_cons_of_pos _ _ (by simp), hzero]

/-- C5: `handleUpdateQuantity` with a quantity below 1 removes exactly the
matching line (keeping every other line, in order, unchanged, and no
matching line survives); with a quantity of at least 1 it keeps the length
and rewrites only the matching line's quantity; and when no line matches
the cart is unchanged. -/
theorem handleUpdateQuantity_spec (cart : List CartItem) (itemId : String)
    (opts : List SelectedOption) (q : ℚ) :
    (q < 1 →
      handleUpdateQuantity cart itemId q opts =
        cart.filter (fun c => !(lineKeyMatches itemId opts c)) ∧
      ∀ c ∈ handleUpdateQuantity cart itemId q opts,
        lineKeyMatches itemId opts c = false) ∧
    (1 ≤ q →
      (handleUpdateQuantity cart itemId q opts).length = cart.length ∧
      ∀ (i : ℕ) (c : CartItem), cart[i]? = some c →
        (handleUpdateQuantity cart itemId q opts)[i]? =
          some (if lineKeyMatches itemId opts c then { c with quantity := q }
                else c)) ∧
    ((∀ c ∈ cart, lineKeyMatches itemId opts c = false) →
      handleUpdateQuantity cart itemId q opts = cart) := by
  refine ⟨?_, ?_, ?_⟩
  · intro hq
    have hdef : handleUpdateQuantity cart itemId q opts =
        cart.filter (fun c => !(lineKeyMatches itemId opts c)) := by
      unfold handleUpdateQuantity
      rw [if_pos hq]
    refine ⟨hdef, ?_⟩
    intro c hcmem
    rw [hdef] at hcmem
    simpa using (List.mem_filter.mp hcmem).2
  · intro hq
    have hdef : handleUpdateQuantity cart itemId q opts =
        cart.map (fun c =>
          if lineKeyMatches itemId opts c then { c with quantity := q }
          else c) := by
      unfold handleUpdateQuantity
      rw [if_neg (not_lt.mpr hq)]
    refine ⟨by rw [hdef, List.length_map], ?_⟩
    intro i c hci
    rw [hdef, List.getElem?_map, hci]
    rfl
  · intro h
    unfold handleUpdateQuantity
    split
    · exact List.filter_eq_self.mpr (fun a ha => by simp [h a ha])
    · have hmap : cart.map (fun c =>
          if lineKeyMatches itemId opts c then { c with quantity := q }
          else c) = cart.map id :=
        List.map_congr_left (fun a ha => by simp [h a ha])
      rw [hmap, List.map_id]

/-- Witness for C5: setting the burger line's quantity to 0 in a two-line
cart removes it and keeps the fries line. -/
theorem handleUpdateQuantity_spec_witness :
    handleUpdateQuantity [lineBurger, lineFries] "m1" 0 [optA] =
      [lineBurger, lineFries].filter
        (fun c => !(lineKeyMatches "m1" [optA] c)) :=
  ((handleUpdateQuantity_spec [lineBurger, lineFries] "m1" [optA] 0).1
    (by norm_num)).1

/-- C2: `handlePlaceOrder` — when no line carries the same id and
stringified option set, a fresh line with quantity 1 is appended, and a
second identical add turns that single line into quantity 2 without adding
another line; when a line matches, the cart keeps its length and only
matching lines get their quantity bumped by 1; and adding the same item
with a differently-ordered (hence differently-serialized) option set
appends a second, distinct line with quantity 1. -/
theorem handlePlaceOrder_spec (cart : List CartItem) (item : MenuItem)
    (opts : List SelectedOption) :
    ((∀ c ∈ cart, lineKeyMatches item.id opts c = false) →
      handlePlaceOrder cart item opts = cart ++ [newCartLine item opts] ∧
      handlePlaceOrder (handlePlaceOrder cart item opts) item opts =
        cart ++ [{ newCartLine item opts with quantity := 2 }]) ∧
    ((∃ c ∈ cart, lineKeyMatches item.id opts c = true) →
      (handlePlaceOrder cart item opts).length = cart.length ∧
      ∀ (i : ℕ) (c : CartItem), cart[i]? = some c →
        (handlePlaceOrder cart item opts)[i]? =
          some (if lineKeyMatches item.id opts c then
                  { c with quantity := c.quantity + 1 } else c)) ∧
    (∀ opts2 : List SelectedOption, opts ≠ opts2 →
      (∀ c ∈ cart, lineKeyMatches item.id opts c = false ∧
                   lineKeyMatches item.id opts2 c = false) →
      handlePlaceOrder (handlePlaceOrder cart item opts) item opts2 =
        cart ++ [newCartLine item opts, newCartLine item opts2] ∧
      newCartLine item opts ≠ newCartLine item opts2) := by
  refine ⟨?_, ?_, ?_⟩
  · intro h
    have hfind : cart.find? (lineKeyMatches item.id opts) = none :=
      List.find?_eq_none.mpr (fun x hx => by simp [h x hx])
    have h1 : handlePlaceOrder cart item opts =
        cart ++ [newCartLine item opts] := by
      unfold handlePlaceOrder
      rw [hfind]
    refine ⟨h1, ?_⟩
    rw [h1]
    have hfind2 : (cart ++ [newCartLine item opts]).find?
        (lineKeyMatches item.id opts) = some (newCartLine item opts) := by
      rw [List.find?_append, hfind]
      simp [lineKeyMatches, newCartLine]
    unfold handlePlaceOrder
    rw [hfind2, List.map_append]
    have hmap : cart.map (fun c =>
        if lineKeyMatches item.id opts c then
          { c with quantity := c.quantity + 1 } else c) = cart.map id :=
      List.map_congr_left (fun a ha => by simp [h a ha])
    rw [hmap, List.map_id]
    have hself : lineKeyMatches item.id opts (newCartLine item opts)
        = true := by
      simp [lineKeyMatches, newCartLine]
    simp only [List.map_cons, List.map_nil, hself, if_pos]
    norm_num [newCartLine]
  · rintro ⟨c0, hc0, hk⟩
    obtain ⟨v, hv⟩ := Option.isSome_iff_exists.mp
      (List.find?_isSome.mpr ⟨c0, hc0, hk⟩)
    have hdef : handlePlaceOrder cart item opts =
        cart.map (fun c =>
          if lineKeyMatches item.id opts c then
            { c with quantity := c.quantity + 1 } else c) := by
      unfold handlePlaceOrder
      rw [hv]
    refine ⟨by rw [hdef, List.length_map], ?_⟩
    intro i c hci
    rw [hdef, List.getElem?_map, hci]
    rfl
  · intro opts2 hne h
    have hfind : cart.find? (lineKeyMatches item.id opts) = none :=
      List.find?_eq_none.mpr (fun x hx => by simp [(h x hx).1])
    have h1 : handlePlaceOrder cart item opts =
        cart ++ [newCartLine item opts] := by
      unfold handlePlaceOrder
      rw [hfind]
    rw [h1]
    have hmiss : lineKeyMatches item.id opts2 (newCartLine item opts)
        = false := by
      simp [lineKeyMatches, newCartLine, beq_eq_false_iff_ne, hne]
    have hfind2 : (cart ++ [newCartLine item opts]).find?
        (lineKeyMatches item.id opts2) = none := by
      rw [List.find?_append]
      have hf : cart.find? (lineKeyMatches item.id opts2) = none :=
        List.find?_eq_none.mpr (fun x hx => by simp [(h x hx).2])
      rw [hf]
      simp [hmiss]
    constructor
    · unfold handlePlaceOrder
      rw [hfind2, List.append_assoc]
      rfl
    · intro heq
      apply hne
      simpa [newCartLine] using congrArg CartItem.selectedOptions heq

/-- Witness for C2: adding a burger (no options) twice to the empty cart
yields a single line with quantity 2. -/
theorem handlePlaceOrder_spec_witness :
    handlePlaceOrder (handlePlaceOrder [] burger []) burger [] =
      [] ++ [{ newCartLine burger [] with quantity := 2 }] :=
  ((handlePlaceOrder_spec [] burger []).1 (by simp)).2

/-- Witness for C3 at a concrete ready state with order id `"ord1"`. -/
theorem handleOrderNow_success_spec_witness :
    (handleOrderNow readyState "dev" 0 (Except.ok "ord1")).state.cart = [] ∧
    (handleOrderNow readyState "dev" 0
      (Except.ok "ord1")).state.orders.countP
        (fun o => o.id == some "ord1") = 1 := by
  obtain ⟨h1, h2, h3, h4, h5, h6, h7, h8, h9, h10, h11⟩ :=
    handleOrderNow_success_spec readyState "dev" 0 "ord1" (by decide)
      (by decide) rfl
  exact ⟨h8, h11 (by decide)⟩

/-- C7: when the store's document ids are distinct, confirming a table
number issues exactly one update per pending order of the device, no update
for any order that is not pending or belongs to another device, and every
issued update carries the new table string and, applied to a document,
changes only its `tableNumber` field. -/
theorem updateTableNumberInFirestore_spec (store : List StoredOrder)
    (newTable deviceId : String)
    (hnd : (store.map (fun so => so.docId)).Nodup) :
    (∀ so ∈ store, so.doc.deviceId = deviceId →
      so.doc.status = OrderStatus.pending →
      (updateTableNumberInFirestore store newTable deviceId).countP
        (fun w => w.docId == so.docId) = 1) ∧
    (∀ so ∈ store,
      ¬(so.doc.deviceId = deviceId ∧ so.doc.status = OrderStatus.pending) →
      (updateTableNumberInFirestore store newTable deviceId).countP
        (fun w => w.docId == so.docId) = 0) ∧
    (∀ w ∈ updateTableNumberInFirestore store newTable deviceId,
      w.newTableNumber = newTable ∧
      ∀ d : OrderDoc,
        applyTableUpdate d w = { d with tableNumber := FsVal.str newTable }) := by
  have hinj := List.inj_on_of_nodup_map hnd
  have hcount : ∀ x : String,
      (updateTableNumberInFirestore store newTable deviceId).countP
        (fun w => w.docId == x) =
      store.countP (fun a => (a.docId == x) &&
        (a.doc.deviceId == deviceId &&
         a.doc.status == OrderStatus.pending)) := by
    intro x
    unfold updateTableNumberInFirestore
    rw [List.countP_map, List.countP_filter]
    rfl
  refine ⟨?_, ?_, ?_⟩
  · intro so hso hdev hstat
    rw [hcount so.docId]
    have hcg : store.countP (fun a => (a.docId == so.docId) &&
        (a.doc.deviceId == deviceId &&
         a.doc.status == OrderStatus.pending)) =
        store.countP (fun a => a == so) := by
      apply List.countP_congr
      intro a ha
      constructor
      · intro hx
        have h1 : a.docId = so.docId := by
          have := (Bool.and_eq_true _ _).mp hx
          simpa using this.1
        simpa using hinj ha hso h1
      · intro hx
        have haeq : a = so := by simpa using hx
        subst haeq
        simp [hdev, hstat]
    rw [hcg]
    have hnds : store.Nodup := List.Nodup.of_map _ hnd
    exact List.count_eq_one_of_mem hnds hso
  · intro so hso hnotp
    rw [hcount so.docId]
    rw [List.countP_eq_zero]
    intro a ha hcontra
    have h1 : a.docId = so.docId := by
      have := (Bool.and_eq_true _ _).mp hcontra
      simpa using this.1
    have h2 : (a.doc.deviceId == deviceId &&
        a.doc.status == OrderStatus.pending) = true :=
      ((Bool.and_eq_true _ _).mp hcontra).2
    have haeq : a = so := hinj ha hso h1
    subst haeq
    have := (Bool.and_eq_true _ _).mp h2
    exact hnotp ⟨by simpa using this.1, by simpa using this.2⟩
  · intro w hw
    obtain ⟨so, hso, rfl⟩ := List.mem_map.mp hw
    exact ⟨rfl, fun d => rfl⟩

/-- Witness for C7 on a concrete two-document store: the pending order
gets exactly one update, the completed one gets none. -/
theorem updateTableNumberInFirestore_spec_witness :
    (updateTableNumberInFirestore demoStore "9" "dev").countP
      (fun w => w.docId == "d1") = 1 ∧
    (updateTableNumberInFirestore demoStore "9" "dev").countP
      (fun w => w.docId == "d2") = 0 := by
  obtain ⟨h1, h2, h3⟩ :=
    updateTableNumberInFirestore_spec demoStore "9" "dev" (by decide)
  exact ⟨h1 { docId := "d1", doc := docPending } (by decide) rfl rfl,
         h2 { docId := "d2", doc := docDone } (by decide) (by decide)⟩

/-- C10: the two table-number writers store under different types — every
bulk update writes the raw string `t` into `tableNumber`, while a
submission stores `parseInt(t)` as a number; a string value never equals a
numeric value, and for the non-numeric `"abc"` `parseInt` yields `NaN`
(so submission stores `NaN` where the bulk update stores `"abc"`). -/
theorem tableNumber_write_type_mismatch (t deviceId orderId : String)
    (store : List StoredOrder) (s : ClientState) (now : Int)
    (hc : s.cart ≠ []) (hs : s.isSubmitting = false)
    (ht : s.tableNumber = t) (hne : t ≠ "") :
    (∀ w ∈ updateTableNumberInFirestore store t deviceId,
      ∀ d : OrderDoc, (applyTableUpdate d w).tableNumber = FsVal.str t) ∧
    (∃ d : OrderDoc,
      (handleOrderNow s deviceId now (Except.ok orderId)).persisted = some d ∧
      d.tableNumber = FsVal.num (jsParseInt t)) ∧
    (∀ (u : String) (x : Option Int), FsVal.str u ≠ FsVal.num x) ∧
    jsParseInt "abc" = none := by
  refine ⟨?_, ?_, ?_, rfl⟩
  · intro w hw d
    obtain ⟨so, hso, rfl⟩ := List.mem_map.mp hw
    rfl
  · have hguard : (s.cart.isEmpty || s.isSubmitting || s.tableNumber == "")
        = false := by
      simp [hc, hs, ht, hne]
    exact ⟨buildOrderDoc s deviceId now,
      by simp [handleOrderNow, hguard],
      by simp [buildOrderDoc, ht]⟩
  · intro u x hcontra
    exact FsVal.noConfusion hcontra

/-- Witness for C10: submitting with table string `"abc"` persists
`tableNumber = NaN` (numeric), not the string. -/
theorem tableNumber_write_type_mismatch_witness :
    ∃ d : OrderDoc,
      (handleOrderNow abcState "dev" 0 (Except.ok "ord1")).persisted
        = some d ∧
      d.tableNumber = FsVal.num none := by
  obtain ⟨h1, ⟨d, hd1, hd2⟩, h3, h4⟩ :=
    tableNumber_write_type_mismatch "abc" "dev" "ord1" [] abcState 0
      (by decide) rfl rfl (by decide)
  exact ⟨d, hd1, by rw [hd2, h4]⟩
